import Mathlib

/-!
Verification of the website-finder resolution pipeline.

The development is a shallow embedding of src/website_finder.py.
Python strings are modelled as List Char; Optional[str] as Option (List Char);
a Python exception escaping a function is modelled with Except.  Network and
HTML-parsing collaborators (requests, BeautifulSoup, duckduckgo_search) are
abstracted into explicit input data: each adapter receives the response its
collaborator would have produced (or an error) and the embedding reproduces
what the Python code computes from it.
-/

/-- Coerce a Lean string literal to the List Char representation used
throughout the development. -/
def chars (s : String) : List Char := s.data

/-- Python str.lower, character by character (ASCII case mapping, which
coincides with Python on the ASCII inputs this program handles). -/
def pyLower (s : List Char) : List Char := s.map Char.toLower

/-- Python substring membership, needle in hay: true iff needle occurs as a
contiguous (possibly empty) substring of hay.  Note that in Python the empty
string is a substring of every string. -/
def py_in : List Char → List Char → Bool
  | needle, [] => needle.isEmpty
  | needle, c :: t => needle.isPrefixOf (c :: t) || py_in needle t

/-- Characters kept by the slug regex: re.sub removes every character outside
a-z and 0-9 from the lowercased brand name. -/
def isSlugChar (c : Char) : Bool :=
  ('a' ≤ c && c ≤ 'z') || ('0' ≤ c && c ≤ '9')

/-- BrandSlug derivation from website_finder.py line 113:
re.sub applied to brand.lower() removing all non-alphanumeric characters. -/
def brandSlug (brand : List Char) : List Char :=
  (pyLower brand).filter isSlugChar

/-- Characters allowed in a URL scheme by urllib.parse
(letters, digits, plus, minus, dot). -/
def isSchemeChar (c : Char) : Bool :=
  c.isAlpha || c.isDigit || c == '+' || c == '-' || c == '.'

/-- Split a character list at the first colon, returning the parts before and
after it, or none when no colon occurs (urllib's url.find of the colon). -/
def splitColon : List Char → Option (List Char × List Char)
  | [] => none
  | c :: cs =>
      if c = ':' then some ([], cs)
      else
        match splitColon cs with
        | some (pre, post) => some (c :: pre, post)
        | none => none

/-- Drop a leading scheme: as urllib.parse does: the part before the first
colon is removed when it is nonempty, starts with an ASCII letter and
consists of scheme characters only; otherwise the input is unchanged. -/
def dropScheme (url : List Char) : List Char :=
  match splitColon url with
  | some (pre, post) =>
      match pre with
      | [] => url
      | c :: _ => if c.isAlpha && pre.all isSchemeChar then post else url
  | none => url

/-- The netloc component computed by urllib.parse.urlparse: after removing the
scheme, when the remainder starts with two slashes the netloc extends up to
the next slash, question mark or hash; otherwise it is empty.  This models
urlparse on URLs free of embedded whitespace and control characters, which is
the shape of every candidate URL the program handles. -/
def netlocOf (url : List Char) : List Char :=
  match dropScheme url with
  | '/' :: '/' :: r => r.takeWhile (fun c => !(c == '/' || c == '?' || c == '#'))
  | _ => []

/-- The static exclusion set EXCLUDE_DOMAINS of website_finder.py lines 24-27,
as a list (the Python set is only iterated with any, so order is irrelevant). -/
def EXCLUDE_DOMAINS : List (List Char) :=
  [chars "wikipedia.org", chars "facebook.com", chars "instagram.com",
   chars "youtube.com", chars "twitter.com", chars "linkedin.com",
   chars "amazon.com", chars "etsy.com", chars "pinterest.com",
   chars "reddit.com", chars "sephora.com", chars "ulta.com",
   chars "walmart.com"]

/-- The www-stripping step of website_finder.py line 120: drop a leading
www. from the lowercased domain, otherwise keep it unchanged. -/
def stripWWW (domain : List Char) : List Char :=
  if (chars "www.").isPrefixOf domain then domain.drop 4 else domain

/-- The heuristic of website_finder.py lines 111-124.  Line by line:
brand_slug is the lowercased brand with non-alphanumerics removed; domain is
the lowercased netloc of the URL; any domain ending in .ru is rejected; a
leading www. is stripped; any stripped domain with an EXCLUDE_DOMAINS suffix
is rejected; finally the first six characters of the slug must occur inside
the stripped domain (Python substring membership). -/
def _looks_official (url brand : List Char) : Bool :=
  let brand_slug := brandSlug brand
  let domain := pyLower (netlocOf url)
  if (chars ".ru").isSuffixOf domain then false
  else
    let domain_nw := stripWWW domain
    if EXCLUDE_DOMAINS.any (fun bad => bad.isSuffixOf domain_nw) then false
    else py_in (brand_slug.take 6) domain_nw

/-- The SPARQL query built by fetch_wikidata_site (website_finder.py lines
32-35): the brand name is interpolated by the f-string directly between the
double quotes of the rdfs:label literal, with no escaping of any kind. -/
def wikidataQuery (name : List Char) : List Char :=
  chars "SELECT ?website WHERE \x7b\n      ?entity rdfs:label \"" ++ name ++
  chars "\"@en .\n      ?entity wdt:P856 ?website .\n    \x7d LIMIT 1"

/-- The result-extraction step of fetch_wikidata_site (lines 36-54): the
network call either raises or yields the results.bindings list, modelled here
as the list of website value fields.  The body is wrapped in a broad
try/except, so an error from the collaborator is caught and the function
returns None; on success the first binding wins, and an empty binding list
also yields None. -/
def fetch_wikidata_site (resp : Except E (List (List Char))) :
    Option (List Char) :=
  match resp with
  | Except.error _ => none
  | Except.ok bindings => bindings.head?

/-- One row of the parsed infobox table.  header is the stripped text of the
first th cell when the row has one (row.find of th); anchors lists the href
attributes of the anchor elements with an href inside the row, in document
order (so row.find of an anchor with href is the head of the list). -/
structure InfoboxRow where
  header : Option (List Char)
  anchors : List (List Char)

/-- The infobox-scanning loop of fetch_wikipedia_site (website_finder.py
lines 97-106), given the parsed rows of the infobox table: rows are visited
top to bottom; a row without a th header is skipped; when the header text
lowercased contains the substring website, the first anchor with an href is
examined, and it is returned exactly when the href starts with http and
_looks_official accepts it; in every other case the loop simply continues
with the remaining rows, and an exhausted loop yields None.  The surrounding
steps (search call, page fetch, HTML parsing, the broad try/except) reduce to
supplying this row list; every failure there yields None. -/
def fetch_wikipedia_site (name : List Char) : List InfoboxRow → Option (List Char)
  | [] => none
  | row :: rest =>
      match row.header with
      | none => fetch_wikipedia_site name rest
      | some h =>
          if py_in (chars "website") (pyLower h) then
            match row.anchors with
            | link :: _ =>
                if (chars "http").isPrefixOf link && _looks_official link name
                then some link
                else fetch_wikipedia_site name rest
            | [] => fetch_wikipedia_site name rest
          else fetch_wikipedia_site name rest

/-- fetch_duckduckgo_site (website_finder.py lines 126-133): the search
collaborator either raises or yields the ranked result hrefs; the function
returns the first href accepted by _looks_official, or None when none of the
results qualifies.  Unlike the two other adapters this function has no
try/except, so a collaborator error escapes the function: the model
propagates the error. -/
def fetch_duckduckgo_site (name : List Char)
    (results : Except E (List (List Char))) : Except E (Option (List Char)) :=
  match results with
  | Except.error e => Except.error e
  | Except.ok rs => Except.ok (rs.find? (fun u => _looks_official u name))

/-- Python truthiness of an Optional[str] value: None and the empty string
are falsy, every other string is truthy. -/
def truthy : Option (List Char) → Bool
  | none => false
  | some s => !s.isEmpty

/-- get_website (website_finder.py lines 135-146), with each adapter call
replaced by the value it would produce: the Wikidata and Wikipedia adapters
catch their own errors and so contribute an Option, while the DuckDuckGo
adapter may propagate an error (there is no handler in get_website either).
The first truthy site wins with its source tag; if all three are falsy the
result is None with tag not_found. -/
def get_website (wd wp : Option (List Char))
    (ddg : Except E (Option (List Char))) :
    Except E (Option (List Char) × List Char) :=
  if truthy wd then Except.ok (wd, chars "wikidata")
  else if truthy wp then Except.ok (wp, chars "wikipedia")
  else
    match ddg with
    | Except.error e => Except.error e
    | Except.ok site =>
        if truthy site then Except.ok (site, chars "duckduckgo")
        else Except.ok (none, chars "not_found")


/-! Definitions following the wording of the spec rather than the source,
used only to compare the spec's notion of Domain with the code's.  The spec
(Data Model) derives Domain from a CandidateURL as the registrable host,
lowercased; a URL host excludes any userinfo before the at-sign and any port
after the colon, which urlparse exposes as hostname rather than netloc. -/

/-- Follows the spec's words: the part of the netloc after the last at-sign
(drop userinfo). -/
def dropUserinfo (netloc : List Char) : List Char :=
  (netloc.reverse.takeWhile (fun c => !(c == '@'))).reverse

/-- Follows the spec's words: the part of the netloc before the first colon
(drop the port). -/
def dropPort (netloc : List Char) : List Char :=
  netloc.takeWhile (fun c => !(c == ':'))

/-- Follows the spec's words: the URL's host, lowercased, without userinfo
and port. -/
def specHost (url : List Char) : List Char :=
  dropPort (dropUserinfo (pyLower (netlocOf url)))

/-- Follows the spec's words: the top-level label of a host, the part after
the last dot (the whole host when it has a single label). -/
def topLabel (host : List Char) : List Char :=
  (host.reverse.takeWhile (fun c => !(c == '.'))).reverse

/-- Python truthiness of an Optional[str] holds exactly for a nonempty
string. -/
theorem truthy_iff (o : Option (List Char)) :
    truthy o = true ↔ ∃ s, o = some s ∧ s ≠ [] := by
  cases o with
  | none => simp [truthy]
  | some s => simp [truthy, List.isEmpty_iff]

/-- C1: the claim states that an empty BrandSlug makes _looks_official reject
every candidate URL.  The code does the opposite: brand "!!!" has an empty
slug, yet the URL https://example.com (which passes the TLD and exclusion
checks) is accepted, because in Python the empty string is a substring of
every string. -/
theorem c1_empty_slug_vacuously_accepts :
    brandSlug (chars "!!!") = [] ∧
    _looks_official (chars "https://example.com") (chars "!!!") = true := by
  decide

/-- C2: the claim states that a search-provider error inside
fetch_duckduckgo_site yields an absent result and never propagates.  The
code has no exception handler there (unlike fetch_wikidata_site, whose
handler is exhibited in the third conjunct), so the error escapes the
adapter, and get_website has no handler either: the Resolver fails instead
of producing a ResolutionResult. -/
theorem c2_search_error_propagates (E : Type) (e : E) (name : List Char) :
    fetch_duckduckgo_site name (Except.error e) = Except.error e ∧
    get_website none none (Except.error e) = Except.error e ∧
    fetch_wikidata_site (Except.error e) = none :=
  ⟨rfl, rfl, rfl⟩

/-- C4: the claim states that fetch_wikidata_site escapes the brand name
before embedding it in the SPARQL query.  The code interpolates the raw name
between the quotes of the rdfs:label literal: for a name containing a double
quote, the name occurs verbatim in the query, the query contains no backslash
at all (so nothing was escaped), and the injected quote closes the label
literal early. -/
theorem c4_query_embeds_quote_unescaped :
    (chars "Acme\" Tools").contains '\"' = true ∧
    py_in (chars "Acme\" Tools") (wikidataQuery (chars "Acme\" Tools")) = true ∧
    (wikidataQuery (chars "Acme\" Tools")).all (fun c => !(c == '\\')) = true ∧
    py_in (chars "rdfs:label \"Acme\" Tools\"@en")
      (wikidataQuery (chars "Acme\" Tools")) = true := by
  decide

/-- A first infobox row whose header contains website but whose only anchor
href is scheme-relative, hence failing the http prefix check. -/
def c3FirstRow : InfoboxRow :=
  ⟨some (chars "Website"), [chars "//acmetools.example"]⟩

/-- A second infobox row whose header also contains website and whose first
anchor passes both the scheme check and _looks_official. -/
def c3SecondRow : InfoboxRow :=
  ⟨some (chars "Website"), [chars "https://acmetools.com"]⟩

/-- C3: the claim states that when the first website row's anchor fails the
checks the adapter result is absent, with no fall-through to a later website
row.  On a concrete infobox whose first website row carries only a
scheme-relative href and whose second website row carries an accepted http
href, the scanning loop returns the second row's href rather than none. -/
theorem c3_counterexample :
    c3FirstRow.header = some (chars "Website") ∧
    py_in (chars "website") (pyLower (chars "Website")) = true ∧
    c3FirstRow.anchors = [chars "//acmetools.example"] ∧
    (chars "http").isPrefixOf (chars "//acmetools.example") = false ∧
    fetch_wikipedia_site (chars "Acme Tools") [c3FirstRow, c3SecondRow]
      = some (chars "https://acmetools.com") := by
  decide

/-- C3 amended: within a row only the first anchor carrying an href is
examined, but when the first website row's anchor fails the scheme check or
_looks_official, the scan continues with the remaining rows, so a later
website row can still supply the result. -/
theorem c3_scan_falls_through (name h link : List Char)
    (anchors : List (List Char)) (rest : List InfoboxRow)
    (hw : py_in (chars "website") (pyLower h) = true)
    (hfail : ((chars "http").isPrefixOf link && _looks_official link name) = false) :
    fetch_wikipedia_site name (⟨some h, link :: anchors⟩ :: rest)
      = fetch_wikipedia_site name rest := by
  conv_lhs => rw [fetch_wikipedia_site]
  simp [hw, hfail]

/-- C3 amended, witness: the fall-through theorem applied to the concrete
infobox of the counterexample. -/
theorem c3_scan_falls_through_witness :
    fetch_wikipedia_site (chars "Acme Tools")
      [⟨some (chars "Website"), [chars "//acmetools.example"]⟩, c3SecondRow]
      = fetch_wikipedia_site (chars "Acme Tools") [c3SecondRow] :=
  c3_scan_falls_through (chars "Acme Tools") (chars "Website")
    (chars "//acmetools.example") [] [c3SecondRow] (by decide) (by decide)

/-- C5: resolver priority.  When the Wikidata adapter produces a nonempty
site, get_website returns it tagged wikidata, whatever the Wikipedia and
DuckDuckGo adapters would have produced (the DuckDuckGo oracle may even be an
error: an adapter that is never reached cannot influence the result); when
Wikidata is falsy and Wikipedia produces a nonempty site, the result is that
site tagged wikipedia, again for every DuckDuckGo oracle. -/
theorem c5_resolver_priority (E : Type) (wd wp : Option (List Char))
    (s : List Char) (ddg : Except E (Option (List Char))) :
    (wd = some s → s ≠ [] →
      get_website wd wp ddg = Except.ok (some s, chars "wikidata")) ∧
    (truthy wd = false → wp = some s → s ≠ [] →
      get_website wd wp ddg = Except.ok (some s, chars "wikipedia")) := by
  constructor
  · rintro rfl hs
    have ht : truthy (some s) = true := by simp [truthy, List.isEmpty_iff, hs]
    unfold get_website
    simp [ht]
  · rintro hwd rfl hs
    have ht : truthy (some s) = true := by simp [truthy, List.isEmpty_iff, hs]
    unfold get_website
    simp [hwd, ht]

/-- C5 witness: with Wikidata answering acmetools.com, a different Wikipedia
answer and an erroring DuckDuckGo provider, the result is the Wikidata hit;
and with Wikidata absent, the Wikipedia hit surfaces. -/
theorem c5_resolver_priority_witness :
    get_website (some (chars "https://acmetools.com"))
      (some (chars "https://example.org")) (Except.error ())
      = Except.ok (some (chars "https://acmetools.com"), chars "wikidata") ∧
    get_website none (some (chars "https://example.org"))
      (Except.error ())
      = Except.ok (some (chars "https://example.org"), chars "wikipedia") :=
  ⟨(c5_resolver_priority Unit (some (chars "https://acmetools.com"))
      (some (chars "https://example.org")) (chars "https://acmetools.com")
      (Except.error ())).1 rfl (by decide),
   (c5_resolver_priority Unit none (some (chars "https://example.org"))
      (chars "https://example.org") (Except.error ())).2 rfl rfl (by decide)⟩

/-- C6: for every resolver outcome, the URL is absent exactly when the tag is
not_found; a wikidata or wikipedia tag carries that adapter's value, a
duckduckgo tag carries the value the search adapter returned, and when all
three adapters come back absent the result is (none, not_found). -/
theorem c6_absent_iff_not_found (E : Type) (wd wp : Option (List Char))
    (ddg : Except E (Option (List Char))) (r : Option (List Char) × List Char)
    (hr : get_website wd wp ddg = Except.ok r) :
    ((r.1 = none ↔ r.2 = chars "not_found") ∧
     (r.2 = chars "wikidata" → r.1 = wd) ∧
     (r.2 = chars "wikipedia" → r.1 = wp) ∧
     (r.2 = chars "duckduckgo" → ddg = Except.ok r.1)) ∧
    (wd = none → wp = none → ddg = Except.ok none →
      r = (none, chars "not_found")) := by
  unfold get_website at hr
  cases hwd : truthy wd with
  | true =>
      rw [hwd] at hr
      simp only [if_true] at hr
      obtain ⟨s, hs, hne⟩ := (truthy_iff wd).mp hwd
      injection hr with h
      cases h
      dsimp only
      refine ⟨⟨?_, ?_, ?_, ?_⟩, ?_⟩
      · rw [hs]; simp; decide
      · intro _; rfl
      · intro hder; exact absurd hder (by decide)
      · intro hder; exact absurd hder (by decide)
      · intro hwdn; rw [hwdn] at hs; exact absurd hs (by simp)
  | false =>
      rw [hwd] at hr
      simp only [Bool.false_eq_true, if_false] at hr
      cases hwp : truthy wp with
      | true =>
          rw [hwp] at hr
          simp only [if_true] at hr
          obtain ⟨s, hs, hne⟩ := (truthy_iff wp).mp hwp
          injection hr with h
          cases h
          dsimp only
          refine ⟨⟨?_, ?_, ?_, ?_⟩, ?_⟩
          · rw [hs]; simp; decide
          · intro hder; exact absurd hder (by decide)
          · intro _; rfl
          · intro hder; exact absurd hder (by decide)
          · intro _ hwpn; rw [hwpn] at hs; exact absurd hs (by simp)
      | false =>
          rw [hwp] at hr
          simp only [Bool.false_eq_true, if_false] at hr
          cases ddg with
          | error e => simp at hr
          | ok site =>
              dsimp only at hr
              cases hsite : truthy site with
              | true =>
                  rw [hsite] at hr
                  simp only [if_true] at hr
                  obtain ⟨s, hs, hne⟩ := (truthy_iff site).mp hsite
                  injection hr with h
                  cases h
                  dsimp only
                  refine ⟨⟨?_, ?_, ?_, ?_⟩, ?_⟩
                  · rw [hs]; simp; decide
                  · intro hder; exact absurd hder (by decide)
                  · intro hder; exact absurd hder (by decide)
                  · intro _; rfl
                  · intro _ _ hok
                    injection hok with hok
                    rw [hok] at hs
                    exact absurd hs (by simp)
              | false =>
                  rw [hsite] at hr
                  simp only [Bool.false_eq_true, if_false] at hr
                  injection hr with h
                  cases h
                  dsimp only
                  refine ⟨⟨?_, ?_, ?_, ?_⟩, ?_⟩
                  · simp
                  · intro hder; exact absurd hder (by decide)
                  · intro hder; exact absurd hder (by decide)
                  · intro hder; exact absurd hder (by decide)
                  · intro _ _ _; rfl

/-- C6 witness: the theorem applied to the run in which all three adapters
are absent. -/
theorem c6_absent_iff_not_found_witness :
    ((none : Option (List Char)) = none ↔ chars "not_found" = chars "not_found") :=
  ((c6_absent_iff_not_found Unit none none (Except.ok none)
    (none, chars "not_found") rfl).1).1

/-- C7: the claim states that every URL whose derived Domain, the host
lowercased with a leading www. label stripped, ends with a member of
ExcludedDomainSet is rejected for every brand.  The code runs the suffix
test on the www-stripped netloc, which still carries any explicit port, so
an excluded host followed by a port slips past: for
https://www.sephora.com:8080/shop the Domain in the claim's sense is
sephora.com, itself a member of the exclusion set, yet _looks_official
accepts the URL for brand Sephora because no suffix of sephora.com:8080 is
in the set and the slug matches. -/
theorem c7_counterexample :
    EXCLUDE_DOMAINS.any (fun bad => bad.isSuffixOf
      (stripWWW (specHost (chars "https://www.sephora.com:8080/shop")))) = true ∧
    _looks_official (chars "https://www.sephora.com:8080/shop")
      (chars "Sephora") = true := by
  decide

/-- C7 amended: any URL whose www-stripped lowercased netloc (which includes
any explicit port, as the code computes it) ends with a member of
EXCLUDE_DOMAINS is rejected by _looks_official for every brand name: the
exclusion test fires before the slug-substring test can accept. -/
theorem c7_excluded_domain_rejected (url brand : List Char)
    (hex : EXCLUDE_DOMAINS.any
      (fun bad => bad.isSuffixOf (stripWWW (pyLower (netlocOf url)))) = true) :
    _looks_official url brand = false := by
  unfold _looks_official
  cases hru : (chars ".ru").isSuffixOf (pyLower (netlocOf url)) with
  | true => simp [hru]
  | false => simp [hru, hex]

/-- C7 amended, witness: the Sephora scenario, a candidate on
www.sephora.com without a port is rejected for brand Sephora because
sephora.com is in the exclusion set. -/
theorem c7_excluded_domain_rejected_witness :
    _looks_official (chars "https://www.sephora.com/shop") (chars "Sephora") = false :=
  c7_excluded_domain_rejected (chars "https://www.sephora.com/shop")
    (chars "Sephora") (by decide)

/-- C8: the claim states that every URL whose domain has top-level label ru
is rejected whatever the brand.  The code only tests whether the lowercased
netloc ends with the literal suffix .ru, so a .ru host followed by an
explicit port slips past: for http://acmetools.ru:8080 the host in the
spec's sense is acmetools.ru with top-level label ru, yet _looks_official
accepts the URL for brand Acme Tools because the slug matches and no check
fires. -/
theorem c8_counterexample :
    topLabel (specHost (chars "http://acmetools.ru:8080")) = chars "ru" ∧
    _looks_official (chars "http://acmetools.ru:8080") (chars "Acme Tools") = true := by
  decide

/-- C8 amended: _looks_official rejects every URL whose lowercased netloc
ends with the literal suffix .ru, regardless of the brand name; the check
runs on the full netloc, before the www label is stripped. -/
theorem c8_netloc_ru_suffix_rejected (url brand : List Char)
    (hru : (chars ".ru").isSuffixOf (pyLower (netlocOf url)) = true) :
    _looks_official url brand = false := by
  unfold _looks_official
  simp [hru]

/-- C8 amended, witness: the scenario URL http://acme-tools.ru is rejected
for brand Acme Tools. -/
theorem c8_netloc_ru_suffix_rejected_witness :
    _looks_official (chars "http://acme-tools.ru") (chars "Acme Tools") = false :=
  c8_netloc_ru_suffix_rejected (chars "http://acme-tools.ru")
    (chars "Acme Tools") (by decide)

/-- C9: for a brand whose slug has between one and five characters, the
substring key taken by the code is the whole slug, and past the TLD and
exclusion checks _looks_official accepts exactly when the full slug occurs
as a contiguous substring of the stripped domain.  Totality on short slugs
is inherent: the embedding is a total function, matching Python where
slicing a short string neither truncates nor raises. -/
theorem c9_short_slug_full_substring (url brand : List Char)
    (hlen1 : 1 ≤ (brandSlug brand).length)
    (hlen5 : (brandSlug brand).length ≤ 5)
    (hru : (chars ".ru").isSuffixOf (pyLower (netlocOf url)) = false)
    (hex : EXCLUDE_DOMAINS.any
      (fun bad => bad.isSuffixOf (stripWWW (pyLower (netlocOf url)))) = false) :
    (brandSlug brand).take 6 = brandSlug brand ∧
    (_looks_official url brand = true ↔
      py_in (brandSlug brand) (stripWWW (pyLower (netlocOf url))) = true) := by
  have htake : (brandSlug brand).take 6 = brandSlug brand :=
    List.take_of_length_le (by omega)
  refine ⟨htake, ?_⟩
  unfold _looks_official
  simp [hru, hex, htake]

/-- C9 witness: brand Acme has the four-character slug acme, and the URL
https://acme.com is accepted exactly as the substring test predicts. -/
theorem c9_short_slug_full_substring_witness :
    (brandSlug (chars "Acme")).take 6 = brandSlug (chars "Acme") ∧
    (_looks_official (chars "https://acme.com") (chars "Acme") = true ↔
      py_in (brandSlug (chars "Acme"))
        (stripWWW (pyLower (netlocOf (chars "https://acme.com")))) = true) :=
  c9_short_slug_full_substring (chars "https://acme.com") (chars "Acme")
    (by decide) (by decide) (by decide) (by decide)

/-- C10: an adapter answering with the empty string is treated by
get_website exactly like an absent answer, in each of the three positions;
and every successful resolution whose tag is not not_found carries a
nonempty URL. -/
theorem c10_empty_candidate_skipped (E : Type) (wd wp : Option (List Char))
    (ddg : Except E (Option (List Char))) :
    get_website (some []) wp ddg = get_website none wp ddg ∧
    get_website wd (some []) ddg = get_website wd none ddg ∧
    get_website wd wp (Except.ok (some []) : Except E (Option (List Char)))
      = get_website wd wp (Except.ok none) ∧
    ∀ r, get_website wd wp ddg = Except.ok r → r.2 ≠ chars "not_found" →
      ∃ s, r.1 = some s ∧ s ≠ [] := by
  refine ⟨rfl, ?_, ?_, ?_⟩
  · unfold get_website
    cases truthy wd <;> rfl
  · unfold get_website
    cases truthy wd <;> cases truthy wp <;> rfl
  · intro r hr hnf
    unfold get_website at hr
    cases hwd : truthy wd with
    | true =>
        rw [hwd] at hr
        simp only [if_true] at hr
        injection hr with h
        cases h
        obtain ⟨s, hs, hne⟩ := (truthy_iff wd).mp hwd
        exact ⟨s, hs, hne⟩
    | false =>
        rw [hwd] at hr
        simp only [Bool.false_eq_true, if_false] at hr
        cases hwp : truthy wp with
        | true =>
            rw [hwp] at hr
            simp only [if_true] at hr
            injection hr with h
            cases h
            obtain ⟨s, hs, hne⟩ := (truthy_iff wp).mp hwp
            exact ⟨s, hs, hne⟩
        | false =>
            rw [hwp] at hr
            simp only [Bool.false_eq_true, if_false] at hr
            cases ddg with
            | error e => simp at hr
            | ok site =>
                dsimp only at hr
                cases hsite : truthy site with
                | true =>
                    rw [hsite] at hr
                    simp only [if_true] at hr
                    injection hr with h
                    cases h
                    obtain ⟨s, hs, hne⟩ := (truthy_iff site).mp hsite
                    exact ⟨s, hs, hne⟩
                | false =>
                    rw [hsite] at hr
                    simp only [Bool.false_eq_true, if_false] at hr
                    injection hr with h
                    cases h
                    exact absurd rfl hnf

/-- C10 witness: with the Wikidata adapter answering the empty string and the
other adapters absent, the resolver behaves as if Wikidata were absent; and
the nonempty-URL guarantee instantiated on a successful Wikidata run. -/
theorem c10_empty_candidate_skipped_witness :
    get_website (E := Unit) (some []) none (Except.ok none)
      = get_website none none (Except.ok none) ∧
    ∃ s, (some (chars "https://acmetools.com"), chars "wikidata").1 = some s ∧ s ≠ [] :=
  ⟨(c10_empty_candidate_skipped Unit (some []) none (Except.ok none)).1,
   (c10_empty_candidate_skipped Unit (some (chars "https://acmetools.com"))
      none (Except.ok none)).2.2.2
      (some (chars "https://acmetools.com"), chars "wikidata") rfl (by decide)⟩
